import Mathlib

/-!
Verification development for the provider abstraction and response-validation
layer of the firefox-tab-organizer extension.

The TypeScript source is shallowly embedded: runtime JavaScript values are
modelled by `JSValue`, functions that can `throw` return `Except JSError _`,
and the free-text extraction regexes of `extractJSON` are embedded as
character-list scanners with the same matching semantics.
-/

set_option maxRecDepth 10000

/-- Runtime JavaScript value, as produced by `JSON.parse` and consumed by the
validators.  Numbers are restricted to integers: every numeric literal the
validation layer inspects is a tab index. -/
inductive JSValue where
  | undefined : JSValue
  | null : JSValue
  | bool : Bool → JSValue
  | num : Int → JSValue
  | str : String → JSValue
  | arr : List JSValue → JSValue
  | obj : List (String × JSValue) → JSValue

/-- JavaScript runtime error: `name` is the constructor (Error, TypeError,
SyntaxError) and `message` the payload; `${error}` stringifies to
`name ++ ": " ++ message`. -/
structure JSError where
  name : String
  message : String
deriving DecidableEq, Repr

def JSError.render (e : JSError) : String := e.name ++ ": " ++ e.message

/-- JavaScript truthiness: `undefined`, `null`, `false`, `0` and `""` are
falsy; objects and arrays (even empty ones) are truthy. -/
def JSValue.truthy : JSValue → Bool
  | .undefined => false
  | .null => false
  | .bool b => b
  | .num n => n != 0
  | .str s => !s.isEmpty
  | .arr _ => true
  | .obj _ => true

/-- The embedding of `Array.isArray`. -/
def JSValue.isArr : JSValue → Bool
  | .arr _ => true
  | _ => false

/-- The test `typeof v === "string"`. -/
def JSValue.isStr : JSValue → Bool
  | .str _ => true
  | _ => false

/-- Elements of an array value (empty list on non-arrays). -/
def JSValue.elems : JSValue → List JSValue
  | .arr xs => xs
  | _ => []

/-- Property access `v.k`: looks the key up on objects (`undefined` when
absent), throws `TypeError` on `null`/`undefined`, and yields `undefined` on
the remaining primitives and on arrays. -/
def getField : JSValue → String → Except JSError JSValue
  | .obj kvs, k => .ok ((kvs.lookup k).getD .undefined)
  | .null, k => .error ⟨"TypeError", "Cannot read properties of null (reading " ++ k ++ ")"⟩
  | .undefined, k => .error ⟨"TypeError", "Cannot read properties of undefined (reading " ++ k ++ ")"⟩
  | _, _ => .ok .undefined

/-- Set (or overwrite) a property on the field list of an object, keeping the
original key order, as object spread `\x7b...data, k\x7d` does. -/
def setFieldList (kvs : List (String × JSValue)) (k : String) (v : JSValue) :
    List (String × JSValue) :=
  if kvs.any (fun p => p.1 = k) then
    kvs.map (fun p => if p.1 = k then (k, v) else p)
  else
    kvs ++ [(k, v)]

/-- Object spread `\x7b ...data, k: v \x7d` on an object value (validation guarantees the
spread target is an object in every reachable call). -/
def setField : JSValue → String → JSValue → JSValue
  | .obj kvs, k, v => .obj (setFieldList kvs k v)
  | other, _, _ => other

/-- The per-group shape test of `validateGrouping`, short-circuit order as in
`!group.name || !group.color || !Array.isArray(group.tabIndices)`; `true`
means the group is invalid. -/
def groupInvalid (g : JSValue) : Except JSError Bool :=
  match getField g "name" with
  | .error e => .error e
  | .ok name =>
    if !name.truthy then
      .ok true
    else
      match getField g "color" with
      | .error e => .error e
      | .ok color =>
        if !color.truthy then
          .ok true
        else
          match getField g "tabIndices" with
          | .error e => .error e
          | .ok tabIndices => .ok (!tabIndices.isArr)

/-- The loop `for (const group of data.groups) \x7b ... \x7d` of `validateGrouping`. -/
def validateGroupList : List JSValue → Except JSError Unit
  | [] => .ok ()
  | g :: rest =>
    match groupInvalid g with
    | .error e => .error e
    | .ok true => .error ⟨"Error", "Invalid group structure"⟩
    | .ok false => validateGroupList rest

/-- The validator `LLMProvider.validateGrouping` (src/lib/llm-provider.ts): requires a
truthy array `groups`, per-group truthy `name` and `color` plus an array
`tabIndices`, and an array `ungrouped`; throws `Error` otherwise. -/
def validateGrouping (data : JSValue) : Except JSError Unit :=
  match getField data "groups" with
  | .error e => .error e
  | .ok groups =>
    if !groups.truthy || !groups.isArr then
      .error ⟨"Error", "Invalid response: missing groups array"⟩
    else
      match validateGroupList groups.elems with
      | .error e => .error e
      | .ok _ =>
        match getField data "ungrouped" with
        | .error e => .error e
        | .ok ungrouped =>
          if !ungrouped.isArr then
            .error ⟨"Error", "Invalid response: missing ungrouped array"⟩
          else
            .ok ()

/-- The validator `LLMProvider.validateCleanResult` (src/lib/llm-provider.ts): requires an
array `tabsToClose` and a string `reasoning` (the string may be empty and the
array elements are not inspected). -/
def validateCleanResult (data : JSValue) : Except JSError Unit :=
  match getField data "tabsToClose" with
  | .error e => .error e
  | .ok tabsToClose =>
    if !tabsToClose.isArr then
      .error ⟨"Error", "Invalid response: missing tabsToClose array"⟩
    else
      match getField data "reasoning" with
      | .error e => .error e
      | .ok reasoning =>
        if !reasoning.isStr then
          .error ⟨"Error", "Invalid response: missing reasoning string"⟩
        else
          .ok ()

/-- The regex class `\s` (ASCII part plus no-break space and BOM; the rare
Unicode space separators are outside the inputs this layer sees). -/
def jsWs (c : Char) : Bool :=
  c = ' ' || c = '\t' || c = '\n' || c = '\r' || c = '\x0b' || c = '\x0c' ||
    c = '\u00A0' || c = '\uFEFF'

def dropWs (cs : List Char) : List Char := cs.dropWhile jsWs

/-- The builtin `String.prototype.trim()`. -/
def jsTrim (s : String) : String :=
  ((s.data.dropWhile jsWs).reverse.dropWhile jsWs).reverse.asString

/-- The builtin `String.prototype.substring(0, n)`. -/
def jsSubstring (s : String) (n : Nat) : String := (s.data.take n).asString

/-- The lazy group body of `(\x7b[\s\S]*?\x7d)` followed by `` \s*``` ``: the
match ends at the first closing brace whose remainder, after whitespace,
starts with three backticks; otherwise the brace joins the body. -/
def fencedBody : List Char → List Char → Option (List Char)
  | _, [] => none
  | acc, c :: rest =>
    if c = '}' && "```".data.isPrefixOf (dropWs rest) then
      some acc.reverse
    else
      fencedBody (c :: acc) rest

/-- One anchored attempt of the code-block regex
`` /```(?:json)?\s*(\x7b[\s\S]*?\x7d)\s*```/ `` at the head of the input,
returning capture group 1. -/
def fencedAt (cs : List Char) : Option (List Char) :=
  if "```".data.isPrefixOf cs then
    let cs1 := cs.drop 3
    let cs2 := if "json".data.isPrefixOf cs1 then cs1.drop 4 else cs1
    match dropWs cs2 with
    | '{' :: rest =>
      match fencedBody [] rest with
      | some body => some ('{' :: (body ++ ['}']))
      | none => none
    | _ => none
  else
    none

/-- Leftmost match of the code-block regex: `String.prototype.match` scans
start positions left to right. -/
def fencedFind : List Char → Option (List Char)
  | [] => none
  | cs@(_ :: rest) =>
    match fencedAt cs with
    | some g => some g
    | none => fencedFind rest

/-- Leftmost match of `/\x7b[\s\S]*\x7d/`: the span from the first opening
brace to the last closing brace after it (none when no such pair exists). -/
def objectFind (cs : List Char) : Option (List Char) :=
  match cs.dropWhile (fun c => c ≠ '{') with
  | [] => none
  | c :: rest =>
    let upToLast := (rest.reverse.dropWhile (fun c => c ≠ '}')).reverse
    if upToLast.isEmpty then none else some (c :: upToLast)

/-- The extractor `LLMProvider.extractJSON` (src/lib/llm-provider.ts): fenced code block
first, then the first top-level brace span, then the trimmed raw text. -/
def extractJSON (response : String) : String :=
  match fencedFind response.data with
  | some g => g.asString
  | none =>
    match objectFind response.data with
    | some m => m.asString
    | none => jsTrim response

/-- JSON's own whitespace (RFC 8259). -/
def jsonWsChar (c : Char) : Bool := c = ' ' || c = '\t' || c = '\n' || c = '\r'

def skipJsonWs (cs : List Char) : List Char := cs.dropWhile jsonWsChar

def escChar : Char → Option Char
  | '"' => some '"'
  | '\\' => some '\\'
  | '/' => some '/'
  | 'b' => some '\x08'
  | 'f' => some '\x0c'
  | 'n' => some '\n'
  | 'r' => some '\r'
  | 't' => some '\t'
  | _ => none

def hexVal (c : Char) : Option Nat :=
  if '0' ≤ c && c ≤ '9' then some (c.toNat - 48)
  else if 'a' ≤ c && c ≤ 'f' then some (c.toNat - 87)
  else if 'A' ≤ c && c ≤ 'F' then some (c.toNat - 55)
  else none

/-- Body of a JSON string literal, to be read after the opening quote;
returns the decoded string and the input after the closing quote. -/
def jstrBody : List Char → List Char → Option (String × List Char)
  | _, [] => none
  | acc, '"' :: rest => some (acc.reverse.asString, rest)
  | acc, '\\' :: 'u' :: a :: b :: c :: d :: rest =>
    match hexVal a, hexVal b, hexVal c, hexVal d with
    | some ha, some hb, some hc, some hd =>
      jstrBody (Char.ofNat (((ha * 16 + hb) * 16 + hc) * 16 + hd) :: acc) rest
    | _, _, _, _ => none
  | acc, '\\' :: e :: rest =>
    match escChar e with
    | some c => jstrBody (c :: acc) rest
    | none => none
  | acc, c :: rest => jstrBody (c :: acc) rest

/-- Digit run accumulator for JSON integers. -/
def digitsAcc : Nat → List Char → Nat × List Char
  | acc, [] => (acc, [])
  | acc, c :: rest =>
    if c.isDigit then digitsAcc (acc * 10 + (c.toNat - 48)) rest else (acc, c :: rest)

mutual

/-- Modelled JS builtin `JSON.parse` (recursive descent, fuel-bounded).
Restricted to the fragment this layer exchanges: objects, arrays, strings,
integers, booleans and null; fractional/exponent numbers are rejected.
Errors carry `SyntaxError` like the builtin. -/
def parseJsonValue : Nat → List Char → Except JSError (JSValue × List Char)
  | 0, _ => .error ⟨"SyntaxError", "JSON.parse model: out of fuel"⟩
  | fuel + 1, cs =>
    match skipJsonWs cs with
    | [] => .error ⟨"SyntaxError", "Unexpected end of JSON input"⟩
    | '{' :: rest =>
      (match skipJsonWs rest with
      | '}' :: rest2 => .ok (.obj [], rest2)
      | r => do
        let (ms, rest2) ← parseJsonMembers fuel r []
        .ok (.obj ms, rest2))
    | '[' :: rest =>
      (match skipJsonWs rest with
      | ']' :: rest2 => .ok (.arr [], rest2)
      | r => do
        let (xs, rest2) ← parseJsonItems fuel r []
        .ok (.arr xs, rest2))
    | '"' :: rest =>
      (match jstrBody [] rest with
      | some (s, rest2) => .ok (.str s, rest2)
      | none => .error ⟨"SyntaxError", "Unterminated string in JSON"⟩)
    | c :: rest =>
      if "true".data.isPrefixOf (c :: rest) then
        .ok (.bool true, (c :: rest).drop 4)
      else if "false".data.isPrefixOf (c :: rest) then
        .ok (.bool false, (c :: rest).drop 5)
      else if "null".data.isPrefixOf (c :: rest) then
        .ok (.null, (c :: rest).drop 4)
      else if c = '-' || c.isDigit then
        let (sign, ds) : Int × List Char := if c = '-' then (-1, rest) else (1, c :: rest)
        match ds with
        | d :: _ =>
          if d.isDigit then
            let (n, rest2) := digitsAcc 0 ds
            match rest2 with
            | e :: _ =>
              if e = '.' || e = 'e' || e = 'E' then
                .error ⟨"SyntaxError", "JSON.parse model: non-integer number"⟩
              else
                .ok (.num (sign * Int.ofNat n), rest2)
            | [] => .ok (.num (sign * Int.ofNat n), [])
          else
            .error ⟨"SyntaxError", "Unexpected token " ++ String.mk [c] ++ " in JSON"⟩
        | [] => .error ⟨"SyntaxError", "Unexpected end of JSON input"⟩
      else
        .error ⟨"SyntaxError", "Unexpected token " ++ String.mk [c] ++ " in JSON"⟩

/-- Comma-separated array items, after the opening bracket and any leading
whitespace. -/
def parseJsonItems :
    Nat → List Char → List JSValue → Except JSError (List JSValue × List Char)
  | 0, _, _ => .error ⟨"SyntaxError", "JSON.parse model: out of fuel"⟩
  | fuel + 1, cs, acc => do
    let (v, rest) ← parseJsonValue fuel cs
    match skipJsonWs rest with
    | ',' :: rest2 => parseJsonItems fuel rest2 (v :: acc)
    | ']' :: rest2 => .ok ((v :: acc).reverse, rest2)
    | _ => .error ⟨"SyntaxError", "Expected comma or closing bracket in JSON array"⟩

/-- Comma-separated object members, after the opening brace and any leading
whitespace; a duplicated key keeps its first position and last value, as the
builtin does. -/
def parseJsonMembers :
    Nat → List Char → List (String × JSValue) →
      Except JSError (List (String × JSValue) × List Char)
  | 0, _, _ => .error ⟨"SyntaxError", "JSON.parse model: out of fuel"⟩
  | fuel + 1, cs, acc =>
    match cs with
    | '"' :: rest =>
      (match jstrBody [] rest with
      | none => .error ⟨"SyntaxError", "Unterminated string in JSON"⟩
      | some (k, rest2) =>
        match skipJsonWs rest2 with
        | ':' :: rest3 => do
          let (v, rest4) ← parseJsonValue fuel rest3
          let acc2 := setFieldList acc k v
          match skipJsonWs rest4 with
          | ',' :: rest5 => parseJsonMembers fuel (skipJsonWs rest5) acc2
          | '}' :: rest5 => .ok (acc2, rest5)
          | _ => .error ⟨"SyntaxError", "Expected comma or closing brace in JSON object"⟩
        | _ => .error ⟨"SyntaxError", "Expected colon after key in JSON object"⟩)
    | _ => .error ⟨"SyntaxError", "Expected string key in JSON object"⟩

end

/-- Modelled JS builtin `JSON.parse` at the string level: one value, then
only whitespace to the end of input. -/
def jsonParse (s : String) : Except JSError JSValue := do
  let (v, rest) ← parseJsonValue (s.data.length + 2) s.data
  match skipJsonWs rest with
  | [] => .ok v
  | _ :: _ => .error ⟨"SyntaxError", "Unexpected non-whitespace character after JSON data"⟩

/-- The `TabData` record of src/lib/types.ts. -/
structure TabData where
  id : Int
  index : Int
  title : String
  url : String
  favIconUrl : Option String
  active : Bool
  pinned : Bool
  windowId : Int
  groupId : Int
deriving DecidableEq, Repr

/-- One `\x7btitle, url\x7d` detail pair of `CleanResult.tabDetails`. -/
structure TabDetail where
  title : String
  url : String
deriving DecidableEq, Repr

/-- A JavaScript array subscript `tabs[idx]` resolves when the subscript is a
non-negative in-range integer, or the canonical decimal string of one. -/
def canonicalIndex : JSValue → Option Nat
  | .num n => if 0 ≤ n then some n.toNat else none
  | .str s =>
    if !s.isEmpty && s.data.all Char.isDigit && (s = "0" || s.data.head? ≠ some '0') then
      s.toNat?
    else
      none
  | _ => none

/-- Array subscription `tabs[idx]` with an arbitrary runtime subscript (undefined out of range). -/
def tabsIndex (tabs : List TabData) (idx : JSValue) : Option TabData :=
  match canonicalIndex idx with
  | some n => tabs.get? n
  | none => none

/-- One entry of the `data.tabsToClose.map(...)` in `parseCleanResponse` and
`SimpleAISDKProvider.cleanTabs`:
`\x7b title: tabs[idx]?.title || "Unknown", url: tabs[idx]?.url || "" \x7d`. -/
def resolveDetail (tabs : List TabData) (idx : JSValue) : TabDetail :=
  { title :=
      match tabsIndex tabs idx with
      | some t => if t.title.isEmpty then "Unknown" else t.title
      | none => "Unknown"
    url :=
      match tabsIndex tabs idx with
      | some t => if t.url.isEmpty then "" else t.url
      | none => "" }

def detailToJS (d : TabDetail) : JSValue :=
  .obj [("title", .str d.title), ("url", .str d.url)]

/-- The error wrapper of the catch blocks in `parseResponse` and
`parseCleanResponse`:
`` `Failed to parse LLM response: ${error}. Response: ${response.substring(0, 200)}...` ``. -/
def wrapParseError (response : String) (e : JSError) : JSError :=
  ⟨"Error",
    "Failed to parse LLM response: " ++ e.render ++ ". Response: " ++
      jsSubstring response 200 ++ "..."⟩

/-- The `try` block of `LLMProvider.parseResponse`: extract, parse, validate,
and return the parsed data unchanged. -/
def parseResponseBody (response : String) : Except JSError JSValue :=
  match jsonParse (extractJSON response) with
  | .error e => .error e
  | .ok data =>
    match validateGrouping data with
    | .error e => .error e
    | .ok _ => .ok data

/-- The parser `LLMProvider.parseResponse` (src/lib/llm-provider.ts): the `try` block,
with any failure wrapped with the response excerpt by the `catch` block. -/
def parseResponse (response : String) : Except JSError JSValue :=
  match parseResponseBody response with
  | .ok data => .ok data
  | .error e => .error (wrapParseError response e)

/-- The `try` block of `LLMProvider.parseCleanResponse`: extract, parse,
validate, then attach the derived `tabDetails` via object spread. -/
def parseCleanResponseBody (response : String) (tabs : List TabData) :
    Except JSError JSValue :=
  match jsonParse (extractJSON response) with
  | .error e => .error e
  | .ok data =>
    match validateCleanResult data with
    | .error e => .error e
    | .ok _ =>
      match getField data "tabsToClose" with
      | .error e => .error e
      | .ok tabsToClose =>
        .ok (setField data "tabDetails"
          (.arr (tabsToClose.elems.map (fun idx => detailToJS (resolveDetail tabs idx)))))

/-- The parser `LLMProvider.parseCleanResponse` (src/lib/llm-provider.ts): the `try`
block, with any failure wrapped with the response excerpt by the `catch`
block. -/
def parseCleanResponse (response : String) (tabs : List TabData) :
    Except JSError JSValue :=
  match parseCleanResponseBody response tabs with
  | .ok v => .ok v
  | .error e => .error (wrapParseError response e)

/-- The diagnostic of `SimpleAISDKProvider.callLLM` for an empty payload;
`ctorName` stands for `this.constructor.name`. -/
def emptyResponseMessage (ctorName : String) : String :=
  ctorName ++
    " returned empty response. This may indicate: 1) Model context limit exceeded, 2) API rate limiting, or 3) Invalid API key."

/-- The response handling of `SimpleAISDKProvider.callLLM`
(src/lib/providers/simple-ai-sdk-provider.ts), given the text the backend
call produced: `if (!text || text.trim().length === 0) throw ...`. -/
def callLLM (ctorName : String) (text : String) : Except JSError String :=
  if text.isEmpty || ((jsTrim text).length == 0) then
    .error ⟨"Error", emptyResponseMessage ctorName⟩
  else
    .ok text

/-- The paths `ClaudeProvider.categorize` and `OpenAIProvider.categorize` after the
backend call resolves with `text`: the text goes straight to
`parseResponse`, with no empty-payload check on the way (`callLLM` is not
involved in these paths). -/
def categorizeFromText (text : String) : Except JSError JSValue :=
  parseResponse text

/-- The methods `SimpleAISDKProvider.testConnection` and `ClaudeProvider.testConnection`:
`try \x7b await generateText(...); return true \x7d catch \x7b return false \x7d`,
given the outcome of the backend call.  The `Except` in the result records
whether the method itself throws. -/
def testConnection (outcome : Except JSError String) : Except JSError Bool :=
  match outcome with
  | .ok _ => .ok true
  | .error _ => .ok false

/-- The constructor functions the registry dispatches over. -/
inductive ProviderClass where
  | bedrockClass
  | claudeClass
  | openaiClass
  | geminiClass
  | cerebrasClass
deriving DecidableEq, Repr

/-- The `ProviderInfo` record of the registry (the `class` field is named `cls`). -/
structure ProviderInfo where
  name : String
  cls : ProviderClass
  description : String
  icon : String
deriving DecidableEq, Repr

/-- The `PROVIDERS` table (provider registry), with the exact key, name,
class, description and icon strings of the source. -/
def PROVIDERS : List (String × ProviderInfo) :=
  [("bedrock",
    ⟨"AWS Bedrock", .bedrockClass, "Claude via AWS Bedrock",
      "‚òÅÔ∏è"⟩),
   ("claude",
    ⟨"Anthropic Claude", .claudeClass, "Direct Claude API",
      "\uF8FF\u00FC\u00A7\u00F1"⟩),
   ("openai",
    ⟨"OpenAI", .openaiClass, "GPT-4 and GPT-3.5",
      "\uF8FF\u00FC\u00EE\u00C6"⟩),
   ("gemini",
    ⟨"Google Gemini", .geminiClass, "Google\x27s Gemini models",
      "\uF8FF\u00FC\u00EE\u2211"⟩),
   ("cerebras",
    ⟨"Cerebras", .cerebrasClass, "Fast inference with Cerebras",
      "\u201A\u00F6\u00B0"⟩)]

/-- A constructed provider instance: the class it was built from and the
configuration stored by `this._config = config`. -/
structure Provider where
  cls : ProviderClass
  config : JSValue

/-- Outbound network activity, tracked explicitly so that freedom from
network I/O is a statable property. -/
inductive NetworkEvent where
  | call : String → NetworkEvent
deriving DecidableEq, Repr

/-- The provider constructors: each body is `super(); this._config = config;`
and nothing else, so the network log of construction is empty. -/
def constructProvider (cls : ProviderClass) (config : JSValue) :
    Provider × List NetworkEvent :=
  match cls with
  | .bedrockClass => (⟨.bedrockClass, config⟩, [])
  | .claudeClass => (⟨.claudeClass, config⟩, [])
  | .openaiClass => (⟨.openaiClass, config⟩, [])
  | .geminiClass => (⟨.geminiClass, config⟩, [])
  | .cerebrasClass => (⟨.cerebrasClass, config⟩, [])

/-- The factory `createProvider` (provider registry): registry lookup, `Unknown
provider` error on a miss, constructor dispatch on a hit. -/
def createProvider (ty : String) (config : JSValue) :
    Except JSError (Provider × List NetworkEvent) :=
  match PROVIDERS.lookup ty with
  | none => .error ⟨"Error", "Unknown provider: " ++ ty⟩
  | some info => .ok (constructProvider info.cls config)

/-! ### Specification-side shape predicates

These restate, as decidable predicates, what the spec says the validators
require; the characterization theorems compare them with the translated
validators. -/

/-- Member access on the value succeeds (anything but `null`/`undefined`). -/
def accessible : JSValue → Bool
  | .null => false
  | .undefined => false
  | _ => true

/-- The value of property `k`, `undefined` when absent or on a primitive. -/
def jsField (g : JSValue) (k : String) : JSValue :=
  match g with
  | .obj kvs => (kvs.lookup k).getD .undefined
  | _ => .undefined

/-- Shape a single group element must have to pass `validateGrouping`:
accessible, truthy `name` and `color`, and an array `tabIndices`. -/
def groupShapeOK (g : JSValue) : Bool :=
  accessible g && (jsField g "name").truthy && (jsField g "color").truthy &&
    (jsField g "tabIndices").isArr

/-- Shape a grouping candidate must have to pass `validateGrouping`. -/
def groupingShapeOK (data : JSValue) : Bool :=
  accessible data && (jsField data "groups").isArr &&
    (jsField data "groups").elems.all groupShapeOK &&
    (jsField data "ungrouped").isArr

/-- Shape a clean candidate must have to pass `validateCleanResult`:
an array `tabsToClose` and a string `reasoning` — nothing more. -/
def cleanShapeOK (data : JSValue) : Bool :=
  accessible data && (jsField data "tabsToClose").isArr &&
    (jsField data "reasoning").isStr

/-- The 8-value color enumeration (`TabGroupColor` in src/lib/types.ts). -/
def TAB_GROUP_COLORS : List String :=
  ["blue", "red", "green", "yellow", "purple", "pink", "orange", "cyan"]

/-! ### Concrete candidates and examples used by the theorems -/

/-- A grouping candidate whose only flaw, per the claim, is a `color` outside
the 8-value enumeration. -/
def colorOutsideEnumCandidate : JSValue :=
  .obj [("groups",
    .arr [.obj [("name", .str "Finance"), ("color", .str "magenta"),
      ("tabIndices", .arr [])]]),
    ("ungrouped", .arr [])]


/-- The minimal valid grouping candidate of the claim. -/
def emptyGroupingCandidate : JSValue := .obj [("groups", .arr []), ("ungrouped", .arr [])]


/-- A clean candidate with an empty `reasoning` and a non-integer element in
`tabsToClose`. -/
def emptyReasoningCandidate : JSValue :=
  .obj [("tabsToClose", .arr [.str "x"]), ("reasoning", .str "")]

/-- The three tabs of the clean-result resolution example. -/
def c4Tabs : List TabData :=
  [⟨1, 0, "A", "u1", none, false, false, 1, -1⟩,
   ⟨2, 1, "B", "u2", none, false, false, 1, -1⟩,
   ⟨3, 2, "C", "u3", none, false, false, 1, -1⟩]

/-- The clean candidate of the resolution example, as response text. -/
def c4Response : String := "\x7b\"tabsToClose\":[0,2],\"reasoning\":\"stale\"\x7d"

/-- The value `parseCleanResponse` produces for the resolution example. -/
def c4Expected : JSValue :=
  .obj [("tabsToClose", .arr [.num 0, .num 2]), ("reasoning", .str "stale"),
    ("tabDetails", .arr [detailToJS ⟨"A", "u1"⟩, detailToJS ⟨"C", "u3"⟩])]

/-- A clean response whose single index is out of range for an empty tab
sequence. -/
def outOfRangeCleanResponse : String := "\x7b\"tabsToClose\":[0],\"reasoning\":\"r\"\x7d"

/-- A single tab whose title is the empty string. -/
def emptyTitleTabs : List TabData := [⟨1, 0, "", "u", none, false, false, 1, -1⟩]

/-! ### Validator lemmas -/

theorem getField_accessible (d : JSValue) (k : String) (h : accessible d = true) :
    getField d k = .ok (jsField d k) := by
  cases d <;> simp_all [getField, jsField, accessible]

theorem groupInvalid_of_accessible (g : JSValue) (h : accessible g = true) :
    groupInvalid g = .ok (!groupShapeOK g) := by
  cases g <;> simp_all [groupInvalid, getField, jsField, accessible, groupShapeOK]
  case obj kvs =>
    cases h1 : ((kvs.lookup "name").getD JSValue.undefined).truthy <;>
      cases h2 : ((kvs.lookup "color").getD JSValue.undefined).truthy <;>
        simp [h1, h2]
  all_goals rfl

theorem groupInvalid_not_ok_of_inaccessible (g : JSValue) (h : accessible g = false) :
    ∀ b, groupInvalid g ≠ .ok b := by
  cases g <;> simp_all [groupInvalid, getField, accessible]

theorem validateGroupList_ok_iff (gs : List JSValue) :
    validateGroupList gs = .ok () ↔ gs.all groupShapeOK = true := by
  induction gs with
  | nil => simp [validateGroupList]
  | cons g rest ih =>
    cases hacc : accessible g with
    | true =>
      rw [validateGroupList, groupInvalid_of_accessible g hacc]
      cases hshape : groupShapeOK g <;> simp [hshape, ih]
    | false =>
      have hsh : groupShapeOK g = false := by
        simp [groupShapeOK, hacc]
      cases g <;> simp_all [validateGroupList, groupInvalid, getField, accessible]

theorem validateCleanResult_ok_iff (data : JSValue) :
    validateCleanResult data = .ok () ↔ cleanShapeOK data = true := by
  cases hacc : accessible data with
  | false =>
    cases data <;> simp_all [validateCleanResult, getField, cleanShapeOK, accessible]
  | true =>
    rw [validateCleanResult, getField_accessible data "tabsToClose" hacc]
    simp only [cleanShapeOK, hacc, Bool.true_and]
    cases h1 : (jsField data "tabsToClose").isArr with
    | false => simp [h1]
    | true =>
      rw [getField_accessible data "reasoning" hacc]
      cases h2 : (jsField data "reasoning").isStr <;> simp_all

/-! ### Claim theorems -/

/-- C1 (amended): `validateGrouping` fails (with the error that `parseResponse`
wraps into the malformed-response message) exactly when the candidate is
missing `groups` as an array, or contains a group element without truthy
`name`, truthy `color` or array `tabIndices`, or is missing `ungrouped` as an
array; membership of `color` in the 8-value enumeration is NOT checked, and
element types of `tabIndices`/`ungrouped` are not inspected. -/
theorem validateGrouping_shape_characterization :
    ∀ data : JSValue, validateGrouping data = .ok () ↔ groupingShapeOK data = true := by
  intro data
  cases hacc : accessible data with
  | false =>
    cases data <;> simp_all [validateGrouping, getField, groupingShapeOK, accessible]
  | true =>
    rw [validateGrouping]
    rw [getField_accessible data "groups" hacc]
    simp only [groupingShapeOK, hacc, Bool.true_and]
    cases hg : jsField data "groups" with
    | arr xs =>
      simp only [JSValue.truthy, JSValue.isArr, JSValue.elems, Bool.not_true, Bool.false_or]
      cases hvl : validateGroupList xs with
      | error e =>
        have : ¬ (xs.all groupShapeOK = true) := by
          intro hh
          rw [(validateGroupList_ok_iff xs).mpr hh] at hvl
          cases hvl
        simp_all
      | ok u =>
        cases u
        have hall : xs.all groupShapeOK = true := (validateGroupList_ok_iff xs).mp hvl
        rw [getField_accessible data "ungrouped" hacc]
        cases hu : (jsField data "ungrouped").isArr <;> simp_all
    | undefined => simp_all [JSValue.truthy, JSValue.isArr, JSValue.elems]
    | null => simp_all [JSValue.truthy, JSValue.isArr, JSValue.elems]
    | bool b => simp_all [JSValue.truthy, JSValue.isArr, JSValue.elems]
    | num n => simp_all [JSValue.truthy, JSValue.isArr, JSValue.elems]
    | str s => simp_all [JSValue.truthy, JSValue.isArr, JSValue.elems]
    | obj kvs => simp_all [JSValue.truthy, JSValue.isArr, JSValue.elems]

/-- C1 counterexample: a candidate with `color` `"magenta"` — outside the
8-value enumeration — passes `validateGrouping`, so validation does not fail
for colors outside the enumeration. -/
theorem validateGrouping_accepts_color_outside_enum :
    validateGrouping colorOutsideEnumCandidate = .ok () ∧
      TAB_GROUP_COLORS.contains "magenta" = false ∧
      jsField ((jsField colorOutsideEnumCandidate "groups").elems.headD .undefined) "color" =
        .str "magenta" :=
  ⟨rfl, by decide, rfl⟩

/-- C2: the candidate `\x7b"groups": [], "ungrouped": []\x7d` passes
`validateGrouping`, and `parseResponse` yields it unchanged, with empty
`groups` and empty `ungrouped`. -/
theorem validateGrouping_accepts_minimal_candidate :
    validateGrouping emptyGroupingCandidate = .ok () ∧
      parseResponse "\x7b\"groups\": [], \"ungrouped\": []\x7d" = .ok emptyGroupingCandidate ∧
      getField emptyGroupingCandidate "groups" = .ok (.arr []) ∧
      getField emptyGroupingCandidate "ungrouped" = .ok (.arr []) :=
  ⟨rfl, rfl, rfl, rfl⟩

/-- C7 (amended): after successful validation by `validateCleanResult`,
`tabsToClose` is an array (its element types are not inspected) and
`reasoning` is a string (possibly empty); and nothing more is checked — the
validator succeeds exactly on that shape. -/
theorem validateCleanResult_shape_characterization :
    ∀ data : JSValue, validateCleanResult data = .ok () ↔ cleanShapeOK data = true :=
  fun data => validateCleanResult_ok_iff data

/-- C7 counterexample: a candidate whose `reasoning` is the empty string (and
whose `tabsToClose` holds a non-integer) passes `validateCleanResult`, so
the reasoning field can be empty after successful validation. -/
theorem validateCleanResult_accepts_empty_reasoning :
    validateCleanResult emptyReasoningCandidate = .ok () ∧
      getField emptyReasoningCandidate "reasoning" = .ok (.str "") ∧
      getField emptyReasoningCandidate "tabsToClose" = .ok (.arr [.str "x"]) ∧
      (JSValue.str "").truthy = false :=
  ⟨rfl, rfl, rfl, rfl⟩

/-- C3: `extractJSON` tries the strategies in exactly this order: the first
fenced code block holding a brace span, then the first top-level brace span,
then the trimmed raw text — shown in general against the embedded regex
matchers and on the two concrete extraction examples given in the spec. -/
theorem extractJSON_extraction_order :
    (∀ (response : String) (g : List Char),
        fencedFind response.data = some g → extractJSON response = g.asString) ∧
    (∀ (response : String) (m : List Char),
        fencedFind response.data = none → objectFind response.data = some m →
          extractJSON response = m.asString) ∧
    (∀ response : String,
        fencedFind response.data = none → objectFind response.data = none →
          extractJSON response = jsTrim response) ∧
    extractJSON "Here you go:\n```json\n\x7b\"groups\":[],\"ungrouped\":[]\x7d\n```" =
      "\x7b\"groups\":[],\"ungrouped\":[]\x7d" ∧
    extractJSON "Sure! \x7b\"groups\":[],\"ungrouped\":[]\x7d Hope that helps." =
      "\x7b\"groups\":[],\"ungrouped\":[]\x7d" ∧
    extractJSON "  no json here  " = "no json here" := by
  refine ⟨?_, ?_, ?_, rfl, rfl, rfl⟩
  · intro response g h
    unfold extractJSON
    rw [h]
  · intro response m h1 h2
    unfold extractJSON
    rw [h1, h2]
  · intro response h1 h2
    unfold extractJSON
    rw [h1, h2]

/-- Witness for C3: the three priority branches discharged on concrete
responses. -/
theorem extractJSON_extraction_order_witness :
    extractJSON "```json\n\x7b\"a\":1\x7d\n``` and \x7b\"b\":2\x7d" =
        ("\x7b\"a\":1\x7d".data).asString ∧
      extractJSON "text \x7b\"b\":2\x7d text" = ("\x7b\"b\":2\x7d".data).asString ∧
      extractJSON " plain " = jsTrim " plain " :=
  ⟨extractJSON_extraction_order.1 _ _ rfl,
    extractJSON_extraction_order.2.1 _ _ rfl rfl,
    extractJSON_extraction_order.2.2.1 _ rfl rfl⟩

/-- C9: whenever `parseResponse` or `parseCleanResponse` fails, the error
message is the wrap of the original inner error: it keeps the full rendering
of the inner error and appends an excerpt of the raw response bounded at 200
characters. -/
theorem parse_errors_include_bounded_excerpt :
    (∀ (response : String) (e : JSError), parseResponse response = .error e →
        ∃ inner : JSError,
          e.message = "Failed to parse LLM response: " ++ inner.render ++
            ". Response: " ++ jsSubstring response 200 ++ "...") ∧
    (∀ (response : String) (tabs : List TabData) (e : JSError),
        parseCleanResponse response tabs = .error e →
        ∃ inner : JSError,
          e.message = "Failed to parse LLM response: " ++ inner.render ++
            ". Response: " ++ jsSubstring response 200 ++ "...") ∧
    (∀ response : String, (jsSubstring response 200).length ≤ 200) := by
  refine ⟨?_, ?_, ?_⟩
  · intro response e h
    unfold parseResponse at h
    cases hb : parseResponseBody response with
    | ok d => rw [hb] at h; cases h
    | error inner =>
      rw [hb] at h
      cases h
      exact ⟨inner, rfl⟩
  · intro response tabs e h
    unfold parseCleanResponse at h
    cases hb : parseCleanResponseBody response tabs with
    | ok d => rw [hb] at h; cases h
    | error inner =>
      rw [hb] at h
      cases h
      exact ⟨inner, rfl⟩
  · intro response
    have h1 : (jsSubstring response 200).length = (response.data.take 200).length := rfl
    rw [h1]
    exact List.length_take_le 200 response.data

theorem constructProvider_no_network (cls : ProviderClass) (config : JSValue) :
    (constructProvider cls config).2 = [] := by
  cases cls <;> rfl

/-- C5: `createProvider` fails with the `Unknown provider` error exactly on
identifiers missing from the registry; on registered identifiers it
dispatches to the matching constructor, and construction produces an empty
network log (constructor bodies only store the configuration). -/
theorem createProvider_registry_contract :
    createProvider "not-a-real-provider" (.obj []) =
        .error ⟨"Error", "Unknown provider: not-a-real-provider"⟩ ∧
      (∀ (ty : String) (config : JSValue), PROVIDERS.lookup ty = none →
        createProvider ty config = .error ⟨"Error", "Unknown provider: " ++ ty⟩) ∧
      (∀ (ty : String) (config : JSValue) (info : ProviderInfo),
        PROVIDERS.lookup ty = some info →
          createProvider ty config = .ok (constructProvider info.cls config)) ∧
      (∀ (cls : ProviderClass) (config : JSValue), (constructProvider cls config).2 = []) ∧
      (∀ (ty : String) (config : JSValue) (p : Provider) (evs : List NetworkEvent),
        createProvider ty config = .ok (p, evs) → evs = []) := by
  refine ⟨rfl, ?_, ?_, constructProvider_no_network, ?_⟩
  · intro ty config h
    unfold createProvider
    rw [h]
  · intro ty config info h
    unfold createProvider
    rw [h]
  · intro ty config p evs h
    unfold createProvider at h
    cases hl : PROVIDERS.lookup ty with
    | none => rw [hl] at h; cases h
    | some info =>
      rw [hl] at h
      injection h with h2
      have h3 := congrArg Prod.snd h2
      rw [constructProvider_no_network info.cls config] at h3
      exact h3.symm

/-- Witness for C5: the registry contract discharged on a concrete unknown
identifier and on the concrete `"claude"` entry. -/
theorem createProvider_registry_contract_witness :
    createProvider "nope" (.obj []) = .error ⟨"Error", "Unknown provider: nope"⟩ ∧
      createProvider "claude" (.obj []) =
        .ok (constructProvider
          ((PROVIDERS.lookup "claude").getD ⟨"", .claudeClass, "", ""⟩).cls (.obj [])) ∧
      ([] : List NetworkEvent) = [] :=
  ⟨createProvider_registry_contract.2.1 "nope" (.obj []) rfl,
    createProvider_registry_contract.2.2.1 "claude" (.obj [])
      ((PROVIDERS.lookup "claude").getD ⟨"", .claudeClass, "", ""⟩) rfl,
    createProvider_registry_contract.2.2.2.2 "claude" (.obj [])
      ⟨.claudeClass, .obj []⟩ [] rfl⟩

/-- C6: `testConnection` resolves (never propagates an exception) for every
backend outcome, and resolves to `false` for every injected failure —
timeout, 401 auth rejection and malformed body included. -/
theorem testConnection_never_throws :
    (∀ outcome : Except JSError String, ∃ b : Bool, testConnection outcome = .ok b) ∧
      (∀ e : JSError, testConnection (.error e) = .ok false) ∧
      testConnection (.error ⟨"Error", "Request timed out"⟩) = .ok false ∧
      testConnection (.error ⟨"Error", "401 Unauthorized"⟩) = .ok false ∧
      testConnection (.error ⟨"SyntaxError", "Malformed body"⟩) = .ok false := by
  refine ⟨?_, fun e => rfl, rfl, rfl, rfl⟩
  intro outcome
  cases outcome with
  | ok s => exact ⟨true, rfl⟩
  | error e => exact ⟨false, rfl⟩

/-- C8 counterexample: with an empty backend payload, the categorize path of
the free-text providers fails with the generic parse wrap, whose message is
not the distinct empty-response diagnostic of `callLLM` for any of the
provider class names (no categorize/clean path invokes `callLLM`). -/
theorem empty_payload_generic_error_counterexample :
    categorizeFromText "" =
        .error (wrapParseError "" ⟨"SyntaxError", "Unexpected end of JSON input"⟩) ∧
      (wrapParseError "" ⟨"SyntaxError", "Unexpected end of JSON input"⟩).message ≠
        emptyResponseMessage "ClaudeProvider" ∧
      (wrapParseError "" ⟨"SyntaxError", "Unexpected end of JSON input"⟩).message ≠
        emptyResponseMessage "OpenAIProvider" ∧
      (wrapParseError "" ⟨"SyntaxError", "Unexpected end of JSON input"⟩).message ≠
        emptyResponseMessage "BedrockProvider" ∧
      (wrapParseError "" ⟨"SyntaxError", "Unexpected end of JSON input"⟩).message ≠
        emptyResponseMessage "SimpleAISDKProvider" :=
  ⟨rfl, by decide, by decide, by decide, by decide⟩

/-- C8 (amended): `SimpleAISDKProvider.callLLM` does reject a present but
empty or whitespace-only payload with the distinct empty-response
diagnostic; but the current categorize/clean paths do not route through
`callLLM`, so an empty payload there surfaces as the generic parse failure
instead of the distinct diagnostic. -/
theorem callLLM_empty_payload_behavior :
    (∀ ctorName text : String, jsTrim text = "" →
        callLLM ctorName text = .error ⟨"Error", emptyResponseMessage ctorName⟩) ∧
      (∀ (ctorName text : String) (e : JSError), callLLM ctorName text = .error e →
        e.message = emptyResponseMessage ctorName) ∧
      categorizeFromText "" =
        .error (wrapParseError "" ⟨"SyntaxError", "Unexpected end of JSON input"⟩) := by
  refine ⟨?_, ?_, rfl⟩
  · intro ctorName text h
    simp [callLLM, h]
  · intro ctorName text e h
    unfold callLLM at h
    by_cases hc : (text.isEmpty || ((jsTrim text).length == 0)) = true
    · rw [if_pos hc] at h
      cases h
      rfl
    · rw [if_neg hc] at h
      cases h

/-- Witness for C8: `callLLM` on a whitespace-only payload and on the empty
payload, with the distinct diagnostic observed. -/
theorem callLLM_empty_payload_behavior_witness :
    callLLM "SimpleAISDKProvider" "  " =
        .error ⟨"Error", emptyResponseMessage "SimpleAISDKProvider"⟩ ∧
      (JSError.mk "Error" (emptyResponseMessage "CerebrasProvider")).message =
        emptyResponseMessage "CerebrasProvider" :=
  ⟨callLLM_empty_payload_behavior.1 "SimpleAISDKProvider" "  " rfl,
    callLLM_empty_payload_behavior.2.1 "CerebrasProvider" ""
      ⟨"Error", emptyResponseMessage "CerebrasProvider"⟩ rfl⟩

/-- Witness for C9: a concrete failing parse (empty response) whose wrapped
message carries the inner `SyntaxError` and the (empty) excerpt. -/
theorem parse_errors_include_bounded_excerpt_witness :
    (∃ inner : JSError,
        (wrapParseError "" ⟨"SyntaxError", "Unexpected end of JSON input"⟩).message =
          "Failed to parse LLM response: " ++ inner.render ++
            ". Response: " ++ jsSubstring "" 200 ++ "...") ∧
      (∃ inner : JSError,
        (wrapParseError "not json" ⟨"SyntaxError", "Unexpected token n in JSON"⟩).message =
          "Failed to parse LLM response: " ++ inner.render ++
            ". Response: " ++ jsSubstring "not json" 200 ++ "...") :=
  ⟨parse_errors_include_bounded_excerpt.1 ""
      (wrapParseError "" ⟨"SyntaxError", "Unexpected end of JSON input"⟩) rfl,
    parse_errors_include_bounded_excerpt.2.1 "not json" []
      (wrapParseError "not json" ⟨"SyntaxError", "Unexpected token n in JSON"⟩) rfl⟩

/-! ### Lookup and spread lemmas -/

theorem lookup_cons_self (k : String) (v : JSValue) (es : List (String × JSValue)) :
    List.lookup k ((k, v) :: es) = some v := by
  simp [List.lookup]

theorem lookup_cons_ne (k k1 : String) (v1 : JSValue) (es : List (String × JSValue))
    (h : k ≠ k1) : List.lookup k ((k1, v1) :: es) = List.lookup k es := by
  have hb : (k == k1) = false := beq_false_of_ne h
  simp [List.lookup, hb]

theorem lookup_map_replace (kvs : List (String × JSValue)) (k : String) (v : JSValue)
    (h : kvs.any (fun p => p.1 = k) = true) :
    (kvs.map (fun p => if p.1 = k then (k, v) else p)).lookup k = some v := by
  induction kvs with
  | nil => simp at h
  | cons p rest ih =>
    obtain ⟨k1, v1⟩ := p
    simp only [List.map_cons]
    by_cases hk : k1 = k
    · subst hk
      rw [if_pos (show (k1, v1).1 = k1 from rfl)]
      exact lookup_cons_self k1 v _
    · rw [if_neg (show ¬ ((k1, v1).1 = k) from hk)]
      rw [lookup_cons_ne k k1 v1 _ (fun hh => hk hh.symm)]
      refine ih ?_
      simp only [List.any_cons, Bool.or_eq_true, decide_eq_true_eq] at h
      rcases h with h | h
      · exact absurd h hk
      · simpa using h

theorem lookup_append_new (kvs : List (String × JSValue)) (k : String) (v : JSValue)
    (h : kvs.any (fun p => p.1 = k) = false) :
    (kvs ++ [(k, v)]).lookup k = some v := by
  induction kvs with
  | nil => exact lookup_cons_self k v []
  | cons p rest ih =>
    obtain ⟨k1, v1⟩ := p
    simp only [List.any_cons, Bool.or_eq_false_iff, decide_eq_false_iff_not] at h
    rw [List.cons_append, lookup_cons_ne k k1 v1 _ (fun hh => h.1 hh.symm)]
    refine ih ?_
    simpa using h.2

theorem lookup_setFieldList_self (kvs : List (String × JSValue)) (k : String) (v : JSValue) :
    (setFieldList kvs k v).lookup k = some v := by
  unfold setFieldList
  by_cases hany : kvs.any (fun p => p.1 = k) = true
  · rw [if_pos hany]
    exact lookup_map_replace kvs k v hany
  · rw [if_neg hany]
    exact lookup_append_new kvs k v (Bool.eq_false_iff.mpr hany)

theorem lookup_setFieldList_ne (kvs : List (String × JSValue)) (k k' : String) (v : JSValue)
    (h : k' ≠ k) : (setFieldList kvs k v).lookup k' = kvs.lookup k' := by
  unfold setFieldList
  by_cases hany : kvs.any (fun p => p.1 = k) = true
  · rw [if_pos hany]
    clear hany
    induction kvs with
    | nil => simp
    | cons p rest ih =>
      obtain ⟨k1, v1⟩ := p
      simp only [List.map_cons]
      by_cases hk : k1 = k
      · subst hk
        rw [if_pos (show (k1, v1).1 = k1 from rfl)]
        rw [lookup_cons_ne k' k1 v _ h, lookup_cons_ne k' k1 v1 _ h]
        exact ih
      · rw [if_neg (show ¬ ((k1, v1).1 = k) from hk)]
        by_cases hk' : k' = k1
        · subst hk'
          rw [lookup_cons_self, lookup_cons_self]
        · rw [lookup_cons_ne k' k1 v1 _ hk', lookup_cons_ne k' k1 v1 _ hk']
          exact ih
  · rw [if_neg hany]
    induction kvs with
    | nil =>
      have hb : (k' == k) = false := beq_false_of_ne h
      simp [List.lookup, hb]
    | cons p rest ih =>
      obtain ⟨k1, v1⟩ := p
      by_cases hk' : k' = k1
      · subst hk'
        rw [List.cons_append, lookup_cons_self, lookup_cons_self]
      · rw [List.cons_append, lookup_cons_ne k' k1 v1 _ hk', lookup_cons_ne k' k1 v1 _ hk']
        refine ih ?_
        intro hcontra
        apply hany
        simp only [List.any_cons]
        rw [hcontra]
        simp

theorem getField_setField_self (kvs : List (String × JSValue)) (k : String) (x : JSValue) :
    getField (setField (.obj kvs) k x) k = .ok x := by
  simp [setField, getField, lookup_setFieldList_self]

theorem getField_setField_ne (kvs : List (String × JSValue)) (k k' : String) (x : JSValue)
    (h : k' ≠ k) : getField (setField (.obj kvs) k x) k' = getField (.obj kvs) k' := by
  simp [setField, getField, lookup_setFieldList_ne kvs k k' x h]

theorem parseCleanResponseBody_ok_decomp (response : String) (tabs : List TabData)
    (v : JSValue) (h : parseCleanResponseBody response tabs = .ok v) :
    ∃ (kvs : List (String × JSValue)) (idxs : List JSValue),
      jsonParse (extractJSON response) = .ok (.obj kvs) ∧
      validateCleanResult (.obj kvs) = .ok () ∧
      getField (.obj kvs) "tabsToClose" = .ok (.arr idxs) ∧
      v = setField (.obj kvs) "tabDetails"
        (.arr (idxs.map (fun idx => detailToJS (resolveDetail tabs idx)))) := by
  unfold parseCleanResponseBody at h
  cases hj : jsonParse (extractJSON response) with
  | error e => rw [hj] at h; cases h
  | ok data =>
    rw [hj] at h
    replace h : (match validateCleanResult data with
        | Except.error e => Except.error e
        | Except.ok _ =>
          match getField data "tabsToClose" with
          | Except.error e => Except.error e
          | Except.ok tabsToClose =>
            Except.ok (setField data "tabDetails"
              (JSValue.arr (tabsToClose.elems.map fun idx =>
                detailToJS (resolveDetail tabs idx))))) = Except.ok v := h
    cases hv : validateCleanResult data with
    | error e => rw [hv] at h; cases h
    | ok u =>
      cases u
      rw [hv] at h
      replace h : (match getField data "tabsToClose" with
          | Except.error e => Except.error e
          | Except.ok tabsToClose =>
            Except.ok (setField data "tabDetails"
              (JSValue.arr (tabsToClose.elems.map fun idx =>
                detailToJS (resolveDetail tabs idx))))) = Except.ok v := h
      have hshape := (validateCleanResult_ok_iff data).mp hv
      simp only [cleanShapeOK, Bool.and_eq_true] at hshape
      obtain ⟨⟨hacc, harr⟩, hstr⟩ := hshape
      cases hfv : jsField data "tabsToClose" with
      | arr idxs =>
        have hf : getField data "tabsToClose" = .ok (.arr idxs) := by
          rw [getField_accessible data "tabsToClose" hacc, hfv]
        rw [hf] at h
        replace h : Except.ok (setField data "tabDetails"
            (JSValue.arr (idxs.map fun idx => detailToJS (resolveDetail tabs idx)))) =
            Except.ok v := h
        injection h with h2
        cases data with
        | obj kvs => exact ⟨kvs, idxs, rfl, hv, hf, h2.symm⟩
        | null => simp [accessible] at hacc
        | undefined => simp [accessible] at hacc
        | bool b => simp [jsField] at hfv
        | num n => simp [jsField] at hfv
        | str s => simp [jsField] at hfv
        | arr xs => simp [jsField] at hfv
      | undefined => rw [hfv] at harr; cases harr
      | null => rw [hfv] at harr; cases harr
      | bool b => rw [hfv] at harr; cases harr
      | num n => rw [hfv] at harr; cases harr
      | str s => rw [hfv] at harr; cases harr
      | obj kvs => rw [hfv] at harr; cases harr

/-- C10: whenever `parseCleanResponse` succeeds, `tabDetails` is exactly the
in-order image of `tabsToClose` under detail resolution — one entry per
index — and an index that does not resolve to a tab yields the fallback pair
`\x7btitle: "Unknown", url: ""\x7d` rather than a failure. -/
theorem parseCleanResponse_total_in_indices :
    ∀ (response : String) (tabs : List TabData) (v : JSValue),
      parseCleanResponse response tabs = .ok v →
      ∃ idxs : List JSValue,
        getField v "tabsToClose" = .ok (.arr idxs) ∧
        getField v "tabDetails" =
          .ok (.arr (idxs.map (fun idx => detailToJS (resolveDetail tabs idx)))) ∧
        (idxs.map (fun idx => detailToJS (resolveDetail tabs idx))).length = idxs.length ∧
        (∀ idx : JSValue, tabsIndex tabs idx = none →
          resolveDetail tabs idx = ⟨"Unknown", ""⟩) := by
  intro response tabs v h
  unfold parseCleanResponse at h
  cases hb : parseCleanResponseBody response tabs with
  | error e => rw [hb] at h; cases h
  | ok v' =>
    rw [hb] at h
    injection h with h
    subst h
    obtain ⟨kvs, idxs, hj, hv, hf, hveq⟩ := parseCleanResponseBody_ok_decomp _ _ _ hb
    subst hveq
    refine ⟨idxs, ?_, ?_, List.length_map _ _, ?_⟩
    · rw [getField_setField_ne kvs "tabDetails" "tabsToClose" _ (by decide)]
      exact hf
    · exact getField_setField_self kvs "tabDetails" _
    · intro idx hnone
      unfold resolveDetail
      rw [hnone]


/-- Witness for C10: an out-of-range index over an empty tab sequence
produces the fallback detail pair. -/
theorem parseCleanResponse_total_in_indices_witness :
    ∃ idxs : List JSValue,
      getField (setField (.obj [("tabsToClose", .arr [.num 0]), ("reasoning", .str "r")])
          "tabDetails" (.arr [detailToJS ⟨"Unknown", ""⟩])) "tabsToClose" =
        .ok (.arr idxs) ∧
      getField (setField (.obj [("tabsToClose", .arr [.num 0]), ("reasoning", .str "r")])
          "tabDetails" (.arr [detailToJS ⟨"Unknown", ""⟩])) "tabDetails" =
        .ok (.arr (idxs.map (fun idx => detailToJS (resolveDetail ([] : List TabData) idx)))) ∧
      (idxs.map (fun idx => detailToJS (resolveDetail ([] : List TabData) idx))).length =
        idxs.length ∧
      (∀ idx : JSValue, tabsIndex ([] : List TabData) idx = none →
        resolveDetail ([] : List TabData) idx = ⟨"Unknown", ""⟩) :=
  parseCleanResponse_total_in_indices outOfRangeCleanResponse []
    (setField (.obj [("tabsToClose", .arr [.num 0]), ("reasoning", .str "r")])
      "tabDetails" (.arr [detailToJS ⟨"Unknown", ""⟩])) rfl




/-- C4 (amended): `parseCleanResponse` maps each index of `tabsToClose`, in
order, to `\x7btitle: tabs[idx]?.title || "Unknown", url: tabs[idx]?.url || ""\x7d`;
for an in-range index whose tab has non-empty title and url this is the
pair `\x7btitle, url\x7d` of the tab itself, and on the concrete example of the
claim the result is `[\x7bA, u1\x7d, \x7bC, u3\x7d]` in that order. -/
theorem parseCleanResponse_tabDetails_resolution :
    (parseCleanResponse c4Response c4Tabs = .ok c4Expected ∧
      getField c4Expected "tabDetails" =
        .ok (.arr [detailToJS ⟨"A", "u1"⟩, detailToJS ⟨"C", "u3"⟩])) ∧
    (∀ (tabs : List TabData) (idx : JSValue) (t : TabData),
      tabsIndex tabs idx = some t → t.title ≠ "" → t.url ≠ "" →
        resolveDetail tabs idx = ⟨t.title, t.url⟩) := by
  refine ⟨⟨rfl, rfl⟩, ?_⟩
  intro tabs idx t hidx h1 h2
  have e1 : t.title.isEmpty = false := by
    cases he : t.title.isEmpty with
    | false => rfl
    | true => exact absurd ((String.isEmpty_iff t.title).mp he) h1
  have e2 : t.url.isEmpty = false := by
    cases he : t.url.isEmpty with
    | false => rfl
    | true => exact absurd ((String.isEmpty_iff t.url).mp he) h2
  unfold resolveDetail
  rw [hidx]
  simp [e1, e2]

/-- Witness for C4: the in-range resolution discharged on the first example
tab. -/
theorem parseCleanResponse_tabDetails_resolution_witness :
    resolveDetail c4Tabs (.num 0) = ⟨"A", "u1"⟩ :=
  parseCleanResponse_tabDetails_resolution.2 c4Tabs (.num 0)
    ⟨1, 0, "A", "u1", none, false, false, 1, -1⟩ rfl (by decide) (by decide)


/-- C4 counterexample: for an in-range index whose tab has an empty title,
the produced detail pair is `\x7bUnknown, u\x7d`, not the pair `\x7b"", u\x7d`
of the corresponding tab — the mapping is not plain pair lookup. -/
theorem cleanDetails_not_tab_pair_counterexample :
    tabsIndex emptyTitleTabs (.num 0) = some ⟨1, 0, "", "u", none, false, false, 1, -1⟩ ∧
      resolveDetail emptyTitleTabs (.num 0) = ⟨"Unknown", "u"⟩ ∧
      (⟨"Unknown", "u"⟩ : TabDetail) ≠ ⟨"", "u"⟩ ∧
      parseCleanResponse "\x7b\"tabsToClose\":[0],\"reasoning\":\"stale\"\x7d" emptyTitleTabs =
        .ok (.obj [("tabsToClose", .arr [.num 0]), ("reasoning", .str "stale"),
          ("tabDetails", .arr [.obj [("title", .str "Unknown"), ("url", .str "u")]])]) :=
  ⟨rfl, rfl, by decide, rfl⟩
